import Mathlib

/-!
# Verification of `tlslite/x509.py` (X.509 certificate decoding)

Shallow embedding of the `X509` class from `src/tlslite/x509.py`.

Bytes are modelled as `List Nat` (each element a byte value).  The external
ASN.1 decoding collaborator (`tlslite.utils.asn1parser.ASN1Parser`, not part of
the source under verification) is modelled from the spec's collaborator
contract: a navigable tree node exposing the N-th immediate child, a child's
raw encoded bytes, the immediate child count, and the node's decoded value
bytes.  The byte-level decoder itself is kept abstract: every operation of the
core is parameterised over a decode function `dec : List Nat → Option ASN1Node`
(`none` models a structural decode failure raised by the collaborator).

Likewise the external SHA-1 primitive is an abstract parameter
`sha1 : List Nat → List Nat`, and the external EC key constructor
(`ecdsa.keys.VerifyingKey.from_string`), which may fail when the point is not
on the curve, is modelled by an abstract on-curve test
`oc : Curve → List Nat → Bool` together with a key variant that records the
curve it was constructed for.
-/

/-- Modelled from the spec: the navigable ASN.1 tree node returned by the
external ASN.1 decoder collaborator.  A node carries its decoded value bytes,
its immediate children, and its raw encoded bytes (tag+length+value). -/
inductive ASN1Node where
  | mk : List Nat → List ASN1Node → List Nat → ASN1Node

/-- Decoded value bytes of a node (`.value` in the Python source). -/
def ASN1Node.value : ASN1Node → List Nat
  | .mk v _ _ => v

/-- Immediate children of a constructed node. -/
def ASN1Node.children : ASN1Node → List ASN1Node
  | .mk _ c _ => c

/-- Raw encoded bytes (tag+length+value) of a node. -/
def ASN1Node.encoding : ASN1Node → List Nat
  | .mk _ _ e => e

/-- `getChild(i)`: the i-th immediate child; `none` models the structural
decode error the collaborator raises for a missing child. -/
def ASN1Node.getChild (n : ASN1Node) (i : Nat) : Option ASN1Node :=
  n.children.get? i

/-- `getChildBytes(i)`: the raw encoded bytes (tag+length+value) of the i-th
immediate child. -/
def ASN1Node.getChildBytes (n : ASN1Node) (i : Nat) : Option (List Nat) :=
  (n.children.get? i).map ASN1Node.encoding

/-- `getChildCount()`: number of immediate children. -/
def ASN1Node.getChildCount (n : ASN1Node) : Nat :=
  n.children.length

/-- The three named curves of the curve table (`NIST256p`, `NIST384p`,
`NIST521p` in the source). -/
inductive Curve where
  | P256
  | P384
  | P521
deriving DecidableEq

/-- The public key stored on the certificate entity: either an RSA key built
by `_createPublicRSAKey(n, e)` or an EC verifying key built by
`VerifyingKey.from_string(point_bytes, curve)` (which records its curve). -/
inductive PublicKey where
  | rsa (n e : Nat)
  | ec (curve : Curve) (point : List Nat)
deriving DecidableEq

/-- The failure taxonomy of a parse: structural decode errors surfaced from
the ASN.1 collaborator, Python index errors on empty value bytes, the semantic
validation errors of the spec's taxonomy (each a `SyntaxError` with a distinct
message in the source), and an opaque EC key-construction failure. -/
inductive ParseError where
  | structuralDecode
  | indexError
  | unrecognizedAlgorithm
  | invalidAlgorithmParameters
  | unknownCurve
  | invalidBitStringEncoding
  | unexpectedPublicKeyEncoding
  | keyConstructionFailure
deriving DecidableEq

/-- The certificate entity: the four mutable fields of the `X509` class. -/
structure X509 where
  bytes : List Nat
  publicKey : Option PublicKey
  subject : Option (List Nat)
  certAlg : Option String
deriving DecidableEq

/-- `X509.__init__`: the empty certificate object (lines 34-39). -/
def X509.init : X509 :=
  { bytes := [], publicKey := none, subject := none, certAlg := none }

/-- `bytesToNumber` (external collaborator from `cryptomath`): big-endian
unsigned integer decoding of a byte sequence. -/
def bytesToNumber (bs : List Nat) : Nat :=
  bs.foldl (fun a b => a * 256 + b) 0

/-- One lowercase hexadecimal digit character for a value in `0..15`. -/
def hexDigit (n : Nat) : Char :=
  if n < 10 then Char.ofNat (48 + n) else Char.ofNat (87 + n)

/-- `b2a_hex` (external collaborator): lowercase hexadecimal encoding of a
byte sequence, two digits per byte. -/
def b2aHex (bs : List Nat) : List Char :=
  bs.flatMap (fun b => [hexDigit (b / 16), hexDigit (b % 16)])

/-- `X509._rsaPubKeyParsing` (lines 124-143).  On failure the entity is
returned unchanged together with the error; on success `publicKey` is set.
`dec` models the `ASN1Parser` re-parse of the BIT STRING contents at
line 132. -/
def X509.rsaPubKeyParsing (dec : List Nat → Option ASN1Node) (self : X509)
    (subjectPublicKeyInfoP : ASN1Node) : X509 × Option ParseError :=
  match subjectPublicKeyInfoP.getChild 1 with
  | none => (self, some ParseError.structuralDecode)
  | some subjectPublicKeyP =>
    -- line 130: `subjectPublicKeyP.value[0] != 0` (IndexError when empty)
    match subjectPublicKeyP.value.head? with
    | none => (self, some ParseError.indexError)
    | some b0 =>
      if b0 ≠ 0 then (self, some ParseError.invalidBitStringEncoding)
      else
        -- line 132: `ASN1Parser(subjectPublicKeyP.value[1:])`
        match dec (subjectPublicKeyP.value.drop 1) with
        | none => (self, some ParseError.structuralDecode)
        | some inner =>
          match inner.getChild 0 with
          | none => (self, some ParseError.structuralDecode)
          | some modulusP =>
            match inner.getChild 1 with
            | none => (self, some ParseError.structuralDecode)
            | some publicExponentP =>
              ({ self with publicKey := some (PublicKey.rsa
                    (bytesToNumber modulusP.value)
                    (bytesToNumber publicExponentP.value)) }, none)

/-- `X509._ecdsaPubKeyParsing` (lines 145-150).  The prefix test at line 147
compares the first two bytes with `b'\x00\x04'`; `VerifyingKey.from_string` is
modelled by the abstract on-curve test `oc` (failure is opaque to this
layer). -/
def X509.ecdsaPubKeyParsing (oc : Curve → List Nat → Bool) (self : X509)
    (subjectPublicKeyInfoP : ASN1Node) (curve : Curve) : X509 × Option ParseError :=
  match subjectPublicKeyInfoP.getChild 1 with
  | none => (self, some ParseError.structuralDecode)
  | some child =>
    -- `derPubKey := child.value`
    if child.value.take 2 ≠ [0, 4] then
      (self, some ParseError.unexpectedPublicKeyEncoding)
    else if oc curve (child.value.drop 2) then
      ({ self with publicKey := some (PublicKey.ec curve (child.value.drop 2)) },
       none)
    else (self, some ParseError.keyConstructionFailure)

/-- Lines 82-122 of `X509.parseBinary`: AlgorithmIdentifier extraction, OID
dispatch (lines 88-95, which assign `certAlg`), per-algorithm parameter
validation (lines 98-120) and the hand-off to key extraction.  The source
first resolves `certAlg` from the OID and then branches on the resolved
string; the two chains test the same condition, so they are fused here into
one dispatch per OID. -/
def X509.algResolution (dec : List Nat → Option ASN1Node)
    (oc : Curve → List Nat → Bool) (self : X509)
    (subjectPublicKeyInfoP : ASN1Node) : X509 × Option ParseError :=
  match subjectPublicKeyInfoP.getChild 0 with
  | none => (self, some ParseError.structuralDecode)
  | some algIdentifier =>
    match algIdentifier.getChild 0 with
    | none => (self, some ParseError.structuralDecode)
    | some alg =>
      -- `algOID := alg.value`; `algIdentifierLen := algIdentifier.getChildCount`
      if alg.value = [42, 134, 72, 134, 247, 13, 1, 1, 1] then
        -- `self.certAlg = "rsa"` (line 89), then lines 98-104
        if algIdentifier.getChildCount ≠ 2 then
          ({ self with certAlg := some "rsa" },
           some ParseError.invalidAlgorithmParameters)
        else
          match algIdentifier.getChild 1 with
          | none => ({ self with certAlg := some "rsa" },
                     some ParseError.structuralDecode)
          | some params =>
            if params.value ≠ [] then
              ({ self with certAlg := some "rsa" },
               some ParseError.invalidAlgorithmParameters)
            else
              X509.rsaPubKeyParsing dec { self with certAlg := some "rsa" }
                subjectPublicKeyInfoP
      else if alg.value = [42, 134, 72, 134, 247, 13, 1, 1, 10] then
        -- `self.certAlg = "rsa-pss"` (line 91); parameters ignored (line 120)
        X509.rsaPubKeyParsing dec { self with certAlg := some "rsa-pss" }
          subjectPublicKeyInfoP
      else if alg.value = [42, 134, 72, 206, 61, 2, 1] then
        -- `self.certAlg = "ecdsa"` (line 93), then lines 105-118
        if algIdentifier.getChildCount ≠ 2 then
          ({ self with certAlg := some "ecdsa" },
           some ParseError.invalidAlgorithmParameters)
        else
          match algIdentifier.getChild 1 with
          | none => ({ self with certAlg := some "ecdsa" },
                     some ParseError.structuralDecode)
          | some curveId =>
            if curveId.value = [42, 134, 72, 206, 61, 3, 1, 7] then
              X509.ecdsaPubKeyParsing oc { self with certAlg := some "ecdsa" }
                subjectPublicKeyInfoP Curve.P256
            else if curveId.value = [43, 129, 4, 0, 34] then
              X509.ecdsaPubKeyParsing oc { self with certAlg := some "ecdsa" }
                subjectPublicKeyInfoP Curve.P384
            else if curveId.value = [43, 129, 4, 0, 35] then
              X509.ecdsaPubKeyParsing oc { self with certAlg := some "ecdsa" }
                subjectPublicKeyInfoP Curve.P521
            else ({ self with certAlg := some "ecdsa" },
                  some ParseError.unknownCurve)
      else (self, some ParseError.unrecognizedAlgorithm)

/-- `X509.parseBinary` (lines 54-122).  The result is the entity's state when
the call returns or raises (the Python method mutates `self` in place, so on
an error the state reached so far is what the caller observes) together with
`none` on success or the error raised. -/
def X509.parseBinary (dec : List Nat → Option ASN1Node)
    (oc : Curve → List Nat → Bool) (self : X509)
    (bytes : List Nat) : X509 × Option ParseError :=
  -- line 61: `self.bytes = bytearray(bytes)` -- every state below includes it
  match dec bytes with
  | none => ({ self with bytes := bytes }, some ParseError.structuralDecode)
  | some p =>
    -- line 65: `tbsCertificateP = p.getChild(0)`
    match p.getChild 0 with
    | none => ({ self with bytes := bytes }, some ParseError.structuralDecode)
    | some tbsCertificateP =>
      -- line 69: `tbsCertificateP.value[0] == 0xA0` fixes
      -- `subjectPublicKeyInfoIndex` as 6 (version present) or 5 (absent)
      match tbsCertificateP.value.head? with
      | none => ({ self with bytes := bytes }, some ParseError.indexError)
      | some b0 =>
        -- line 75: `self.subject = tbsCertificateP.getChildBytes(index - 1)`
        match tbsCertificateP.getChildBytes ((if b0 = 0xA0 then 6 else 5) - 1) with
        | none => ({ self with bytes := bytes }, some ParseError.structuralDecode)
        | some subj =>
          -- line 79: `subjectPublicKeyInfoP = tbsCertificateP.getChild(index)`
          match tbsCertificateP.getChild (if b0 = 0xA0 then 6 else 5) with
          | none => ({ self with bytes := bytes, subject := some subj },
                     some ParseError.structuralDecode)
          | some subjectPublicKeyInfoP =>
            X509.algResolution dec oc
              { self with bytes := bytes, subject := some subj }
              subjectPublicKeyInfoP

/-- `X509.getFingerprint` (lines 152-159): `b2a_hex(SHA1(self.bytes))`, with
the SHA-1 primitive an abstract external collaborator. -/
def X509.getFingerprint (sha1 : List Nat → List Nat) (self : X509) : List Char :=
  b2aHex (sha1 self.bytes)

/-- `X509.writeBytes` (lines 161-163): returns the stored raw encoding. -/
def X509.writeBytes (self : X509) : List Nat :=
  self.bytes

/-- The curve resolution table as given by the spec (section 4.2): DER arc
bytes of the three recognised curve OIDs. -/
def curveFromOID (oid : List Nat) : Option Curve :=
  if oid = [42, 134, 72, 206, 61, 3, 1, 7] then some Curve.P256
  else if oid = [43, 129, 4, 0, 34] then some Curve.P384
  else if oid = [43, 129, 4, 0, 35] then some Curve.P521
  else none

/-- Well-formed RSA AlgorithmIdentifier parameters: exactly two children and
an empty decoded parameters value (a DER NULL with zero-length content). -/
abbrev rsaParamsOk (algIdentifier : ASN1Node) : Prop :=
  algIdentifier.getChildCount = 2 ∧
    (algIdentifier.getChild 1).map ASN1Node.value = some []

/-- Modelled from the spec: the continuation of `parseBinary` after the
version-field inspection (section 4.1 steps 4-5), with the subject child
index and the subjectPublicKeyInfo child index passed explicitly. -/
def parseSubjectOnward (dec : List Nat → Option ASN1Node)
    (oc : Curve → List Nat → Bool) (self : X509) (tbsCertificateP : ASN1Node)
    (subjIdx spkiIdx : Nat) : X509 × Option ParseError :=
  match tbsCertificateP.getChildBytes subjIdx with
  | none => (self, some ParseError.structuralDecode)
  | some subj =>
    match tbsCertificateP.getChild spkiIdx with
    | none => ({ self with subject := some subj }, some ParseError.structuralDecode)
    | some subjectPublicKeyInfoP =>
      X509.algResolution dec oc { self with subject := some subj }
        subjectPublicKeyInfoP

/-- The shape of a key-extraction step on entity state `s`: either an error
with `s` unchanged, or success with exactly `publicKey` newly set. -/
def KeyStep (s : X509) (r : X509 × Option ParseError) : Prop :=
  (∃ e, r = (s, some e)) ∨
    (∃ k, r = ({ s with publicKey := some k }, none))

/-- The sixteen lowercase hexadecimal digit characters. -/
def lowercaseHexChars : List Char :=
  String.toList "0123456789abcdef"

/-- A leaf ASN.1 node with value bytes `v` and no children. -/
def leafNode (v : List Nat) : ASN1Node := ASN1Node.mk v [] []

/-- A concrete AlgorithmIdentifier node for an ECDSA certificate on P-256:
child 0 is the ecPublicKey OID, child 1 the P-256 curve OID. -/
def ecAlgId : ASN1Node :=
  ASN1Node.mk [] [leafNode [42, 134, 72, 206, 61, 2, 1],
    leafNode [42, 134, 72, 206, 61, 3, 1, 7]] []

/-- A concrete subjectPublicKeyInfo node for an ECDSA certificate whose BIT
STRING value starts with the nonzero unused-bits byte `1`. -/
def ecBadSpki : ASN1Node :=
  ASN1Node.mk [] [ecAlgId, leafNode [1, 4, 5, 6]] []

/-- A concrete decoded certificate tree: ECDSA on P-256, no version field
(first tbsCertificate value byte is `1`), subject encoding `[3, 3]`, and a
BIT STRING whose first (unused-bits) byte is `1` instead of `0`. -/
def ecBadTree : ASN1Node :=
  ASN1Node.mk []
    [ASN1Node.mk [1]
      [leafNode [], leafNode [], leafNode [], leafNode [],
       ASN1Node.mk [] [] [3, 3],
       ecBadSpki] []] []

/-- A concrete decoded certificate tree whose AlgorithmIdentifier carries an
unrecognised algorithm OID `[9, 9, 9]`. -/
def unknownAlgTree : ASN1Node :=
  ASN1Node.mk []
    [ASN1Node.mk [1]
      [leafNode [], leafNode [], leafNode [], leafNode [],
       ASN1Node.mk [] [] [3, 3],
       ASN1Node.mk [] [ASN1Node.mk [] [leafNode [9, 9, 9]] [],
         leafNode [0]] []] []] []

/-- A concrete AlgorithmIdentifier for RSA PKCS#1: the rsaEncryption OID and
an empty (DER NULL) parameters value. -/
def rsaAlgId : ASN1Node :=
  ASN1Node.mk [] [leafNode [42, 134, 72, 134, 247, 13, 1, 1, 1], leafNode []] []

/-- A concrete subjectPublicKeyInfo for an RSA certificate: the BIT STRING
value is `[0]` (zero unused bits, inner key bytes empty). -/
def rsaSpki : ASN1Node :=
  ASN1Node.mk [] [rsaAlgId, leafNode [0]] []

/-- A concrete tbsCertificate with the optional version field present (first
value byte `0xA0`): subject is child 5 (encoding `[3, 3]`), and child 6 is the
RSA subjectPublicKeyInfo. -/
def rsaTbs : ASN1Node :=
  ASN1Node.mk [160]
    [leafNode [], leafNode [], leafNode [], leafNode [], leafNode [],
     ASN1Node.mk [] [] [3, 3], rsaSpki] []

/-- The inner `RSAPublicKey` SEQUENCE obtained by re-parsing the BIT STRING
contents: modulus bytes `[2, 1]`, public exponent bytes `[1, 0, 1]`. -/
def rsaInner : ASN1Node :=
  ASN1Node.mk [] [leafNode [2, 1], leafNode [1, 0, 1]] []

/-- A concrete decode function: the certificate bytes `[1]` decode to the RSA
certificate tree, and anything else (the inner BIT STRING contents) to the
inner `RSAPublicKey` SEQUENCE. -/
def rsaDec : List Nat → Option ASN1Node :=
  fun b => if b = [1] then some (ASN1Node.mk [] [rsaTbs] []) else some rsaInner

/-- `_rsaPubKeyParsing` is a key-extraction step: it either fails leaving the
entity untouched or sets exactly `publicKey`. -/
theorem rsaPubKeyParsing_keyStep (d : List Nat → Option ASN1Node) (s : X509)
    (spki : ASN1Node) : KeyStep s (X509.rsaPubKeyParsing d s spki) := by
  unfold KeyStep X509.rsaPubKeyParsing
  repeat' split
  all_goals first
    | exact Or.inl ⟨_, rfl⟩
    | exact Or.inr ⟨_, rfl⟩

/-- `_ecdsaPubKeyParsing` either fails leaving the entity untouched or sets
exactly `publicKey`, to an EC key on the curve it was called with. -/
theorem ecdsaPubKeyParsing_cases (o : Curve → List Nat → Bool) (s : X509)
    (spki : ASN1Node) (c : Curve) :
    (∃ e, X509.ecdsaPubKeyParsing o s spki c = (s, some e)) ∨
    (∃ pt, X509.ecdsaPubKeyParsing o s spki c
        = ({ s with publicKey := some (PublicKey.ec c pt) }, none)) := by
  unfold X509.ecdsaPubKeyParsing
  repeat' split
  all_goals first
    | exact Or.inl ⟨_, rfl⟩
    | exact Or.inr ⟨_, rfl⟩

/-- `_ecdsaPubKeyParsing` is a key-extraction step. -/
theorem ecdsaPubKeyParsing_keyStep (o : Curve → List Nat → Bool) (s : X509)
    (spki : ASN1Node) (c : Curve) :
    KeyStep s (X509.ecdsaPubKeyParsing o s spki c) :=
  (ecdsaPubKeyParsing_cases o s spki c).imp
    (fun ⟨e, he⟩ => ⟨e, he⟩) (fun ⟨_, hp⟩ => ⟨_, hp⟩)

/-- A successful ECDSA key-extraction step stores an EC key on the curve it
was called with. -/
theorem ecdsa_curve_of_success (o : Curve → List Nat → Bool) (s : X509)
    (spki : ASN1Node) (c : Curve) (t : X509)
    (ht : X509.ecdsaPubKeyParsing o s spki c = (t, none)) :
    ∃ pt, t.publicKey = some (PublicKey.ec c pt) := by
  rcases ecdsaPubKeyParsing_cases o s spki c with ⟨e, he⟩ | ⟨pt, hp⟩
  · rw [he] at ht
    injection ht with h1 h2
    exact Option.noConfusion h2
  · rw [hp] at ht
    injection ht with h1 h2
    subst h1
    exact ⟨pt, rfl⟩

/-- On any outcome, `_rsaPubKeyParsing` leaves `certAlg` unchanged. -/
theorem rsaPubKeyParsing_certAlg (d : List Nat → Option ASN1Node) (s : X509)
    (spki : ASN1Node) :
    (X509.rsaPubKeyParsing d s spki).1.certAlg = s.certAlg := by
  rcases rsaPubKeyParsing_keyStep d s spki with ⟨e, he⟩ | ⟨k, hk⟩ <;>
    simp [*]

/-- On any outcome, `_ecdsaPubKeyParsing` leaves `certAlg` unchanged. -/
theorem ecdsaPubKeyParsing_certAlg (o : Curve → List Nat → Bool) (s : X509)
    (spki : ASN1Node) (c : Curve) :
    (X509.ecdsaPubKeyParsing o s spki c).1.certAlg = s.certAlg := by
  rcases ecdsaPubKeyParsing_keyStep o s spki c with ⟨e, he⟩ | ⟨k, hk⟩ <;>
    simp [*]

/-- Glue: a key-extraction step performed after `certAlg` was just assigned
yields one of the two visible outcome shapes of algorithm resolution. -/
theorem keyStep_glue (s : X509) (a : String) (r : X509 × Option ParseError)
    (h : KeyStep { s with certAlg := some a } r) :
    (∃ a' e, r = ({ s with certAlg := a' }, some e)) ∨
    (∃ a' k, r = ({ s with certAlg := some a', publicKey := some k }, none)) := by
  rcases h with ⟨e, he⟩ | ⟨k, hk⟩
  · exact Or.inl ⟨some a, e, he⟩
  · exact Or.inr ⟨a, k, hk⟩

/-- Algorithm resolution either fails having touched at most `certAlg`, or
succeeds having set `certAlg` and `publicKey`. -/
theorem algResolution_cases (d : List Nat → Option ASN1Node)
    (o : Curve → List Nat → Bool) (s : X509) (spki : ASN1Node) :
    (∃ a e, X509.algResolution d o s spki = ({ s with certAlg := a }, some e)) ∨
    (∃ a k, X509.algResolution d o s spki
        = ({ s with certAlg := some a, publicKey := some k }, none)) := by
  unfold X509.algResolution
  repeat' split
  all_goals first
    | exact Or.inl ⟨s.certAlg, _, rfl⟩
    | exact Or.inl ⟨_, _, rfl⟩
    | exact keyStep_glue s "rsa" _ (rsaPubKeyParsing_keyStep d _ spki)
    | exact keyStep_glue s "rsa-pss" _ (rsaPubKeyParsing_keyStep d _ spki)
    | exact keyStep_glue s "ecdsa" _ (ecdsaPubKeyParsing_keyStep o _ spki _)

/-- `parseBinary` always stores the new input in `bytes` (line 61 runs
unconditionally), and an erroring call never writes `publicKey`. -/
theorem parseBinary_state (d : List Nat → Option ASN1Node)
    (o : Curve → List Nat → Bool) (s : X509) (bs : List Nat) :
    (X509.parseBinary d o s bs).1.bytes = bs ∧
    (((X509.parseBinary d o s bs).2).isSome = true →
      (X509.parseBinary d o s bs).1.publicKey = s.publicKey) := by
  rcases hd : d bs with _ | p
  · simp [X509.parseBinary, hd]
  · rcases hc : p.getChild 0 with _ | tbs
    · simp [X509.parseBinary, hd, hc]
    · rcases hv : tbs.value.head? with _ | b0
      · simp [X509.parseBinary, hd, hc, hv]
      · rcases hs : tbs.getChildBytes ((if b0 = 0xA0 then 6 else 5) - 1) with _ | subj
        · simp [X509.parseBinary, hd, hc, hv, hs]
        · rcases hk : tbs.getChild (if b0 = 0xA0 then 6 else 5) with _ | spki
          · simp [X509.parseBinary, hd, hc, hv, hs, hk]
          · rcases algResolution_cases d o
                { s with bytes := bs, subject := some subj } spki with
              ⟨a, e, h⟩ | ⟨a, k, h⟩ <;>
            simp [X509.parseBinary, hd, hc, hv, hs, hk, h]

/-- C1 (corrected): a failing `parseBinary` call does leave the entity
partially populated.  Concretely, on a pre-parse entity with `bytes = [9]`
and the other fields empty, parsing input `[7]` against a tree whose
algorithm OID is unrecognised fails, yet afterwards `bytes` and `subject`
hold newly written values while `publicKey` and `certAlg` are still old,
so the fields are not all in their pre-parse state. -/
theorem parseBinary_incomplete_population_counterexample :
    (((X509.parseBinary (fun _ => some unknownAlgTree) (fun _ _ => true)
        { bytes := [9], publicKey := none, subject := none, certAlg := none }
        [7]).2).isSome = true) ∧
    (X509.parseBinary (fun _ => some unknownAlgTree) (fun _ _ => true)
        { bytes := [9], publicKey := none, subject := none, certAlg := none }
        [7]).1
      = { bytes := [7], publicKey := none, subject := some [3, 3],
          certAlg := none } ∧
    ({ bytes := [7], publicKey := none, subject := some [3, 3],
       certAlg := none } : X509)
      ≠ { bytes := [9], publicKey := none, subject := none,
          certAlg := none } := by
  decide

/-- C1 (amended): on any failing `parseBinary` call the entity may be left
partially populated; what does hold is that `bytes` always holds the new
input (it is overwritten before any decoding), and `publicKey` always still
holds its pre-parse value (it is only written as the final, committing step
of a successful parse).  `subject` and `certAlg` may each be either old or
newly written, depending on the failing step. -/
theorem parseBinary_failure_state (d : List Nat → Option ASN1Node)
    (o : Curve → List Nat → Bool) (s : X509) (bs : List Nat)
    (h : ((X509.parseBinary d o s bs).2).isSome = true) :
    (X509.parseBinary d o s bs).1.bytes = bs ∧
    (X509.parseBinary d o s bs).1.publicKey = s.publicKey :=
  ⟨(parseBinary_state d o s bs).1, (parseBinary_state d o s bs).2 h⟩

/-- Witness for the amended C1 theorem at a concrete failing input. -/
theorem parseBinary_failure_state_witness :
    (X509.parseBinary (fun _ => none) (fun _ _ => true)
        { bytes := [9], publicKey := none, subject := none, certAlg := none }
        [7]).1.bytes = [7] :=
  (parseBinary_failure_state (fun _ => none) (fun _ _ => true)
      { bytes := [9], publicKey := none, subject := none, certAlg := none }
      [7] (by decide)).1

/-- C8: `writeBytes` after an accepted `parseBinary` returns exactly the
input bytes, and `writeBytes` is the identity on the stored raw encoding
(never a re-encoding of the parsed fields). -/
theorem parseBinary_writeBytes_roundtrip (d : List Nat → Option ASN1Node)
    (o : Curve → List Nat → Bool) (s : X509) (bs : List Nat)
    (h : (X509.parseBinary d o s bs).2 = none) :
    (X509.parseBinary d o s bs).1.writeBytes = bs ∧
    ∀ c : X509, c.writeBytes = c.bytes :=
  ⟨(parseBinary_state d o s bs).1, fun _ => rfl⟩

/-- Witness for C8 at a concrete accepted RSA certificate. -/
theorem parseBinary_writeBytes_roundtrip_witness :
    (X509.parseBinary rsaDec (fun _ _ => true) X509.init [1]).2 = none ∧
    (X509.parseBinary rsaDec (fun _ _ => true) X509.init [1]).1.writeBytes
      = [1] :=
  ⟨by decide,
   (parseBinary_writeBytes_roundtrip rsaDec (fun _ _ => true) X509.init [1]
      (by decide)).1⟩

/-- Every hex digit for a value below 16 is a lowercase hexadecimal
character. -/
theorem hexDigit_mem_lowercase : ∀ n : Nat, n < 16 → hexDigit n ∈ lowercaseHexChars := by
  decide

/-- `b2aHex` over byte values produces only lowercase hexadecimal
characters. -/
theorem b2aHex_lowercase (bs : List Nat) (hb : ∀ b ∈ bs, b < 256) :
    ∀ ch ∈ b2aHex bs, ch ∈ lowercaseHexChars := by
  intro ch hch
  rw [b2aHex, List.mem_flatMap] at hch
  obtain ⟨b, hbmem, hc⟩ := hch
  have hblt : b < 256 := hb b hbmem
  have h1 : b / 16 < 16 := Nat.div_lt_of_lt_mul (by omega)
  have h2 : b % 16 < 16 := Nat.mod_lt b (by omega)
  simp only [List.mem_cons, List.not_mem_nil, or_false] at hc
  rcases hc with hc | hc <;> subst hc
  · exact hexDigit_mem_lowercase _ h1
  · exact hexDigit_mem_lowercase _ h2

/-- C9: `getFingerprint` is the lowercase hexadecimal digest of the stored
raw encoding only: two entities with equal `bytes` have equal fingerprints
regardless of every other field, the result is exactly `b2aHex` of the SHA-1
digest of `bytes`, and (for digests made of byte values) every character of
the result is a lowercase hexadecimal digit. -/
theorem getFingerprint_deterministic (sha1 : List Nat → List Nat)
    (c1 c2 : X509) (h : c1.bytes = c2.bytes) :
    c1.getFingerprint sha1 = c2.getFingerprint sha1 ∧
    c1.getFingerprint sha1 = b2aHex (sha1 c1.bytes) ∧
    ((∀ b ∈ sha1 c1.bytes, b < 256) →
      ∀ ch ∈ c1.getFingerprint sha1, ch ∈ lowercaseHexChars) :=
  ⟨by simp [X509.getFingerprint, h], rfl, fun hb => b2aHex_lowercase _ hb⟩

/-- Witness for C9: two entities with the same (empty) raw encoding but
different other fields have the same fingerprint. -/
theorem getFingerprint_deterministic_witness :
    X509.init.getFingerprint (fun _ => List.replicate 20 0)
      = ({ bytes := [], publicKey := none, subject := some [1],
           certAlg := some "rsa" } : X509).getFingerprint
          (fun _ => List.replicate 20 0) :=
  (getFingerprint_deterministic (fun _ => List.replicate 20 0) X509.init
      { bytes := [], publicKey := none, subject := some [1],
        certAlg := some "rsa" } rfl).1

/-- C10: a freshly constructed certificate entity has the empty byte
sequence as its raw encoding, so `getFingerprint` succeeds and returns the
hex digest of the empty byte sequence. -/
theorem init_getFingerprint (sha1 : List Nat → List Nat) :
    X509.init.bytes = [] ∧
    X509.init.getFingerprint sha1 = b2aHex (sha1 []) :=
  ⟨rfl, rfl⟩

/-- C7: EC key extraction rejects any BIT STRING value whose first two bytes
are not exactly `{0x00, 0x04}` (in particular the compressed-point prefix
`{0x00, 0x03}`) with `UnexpectedPublicKeyEncoding`, leaving the entity
unchanged (no compressed point is ever accepted). -/
theorem ecdsa_noncanonical_point_rejected (o : Curve → List Nat → Bool)
    (s : X509) (spki pk : ASN1Node) (c : Curve)
    (h1 : spki.getChild 1 = some pk) (h2 : pk.value.take 2 ≠ [0, 4]) :
    X509.ecdsaPubKeyParsing o s spki c
      = (s, some ParseError.unexpectedPublicKeyEncoding) := by
  simp [X509.ecdsaPubKeyParsing, h1, h2]

/-- Witness for C7 at a compressed-point prefix `{0x00, 0x03}`. -/
theorem ecdsa_noncanonical_point_rejected_witness :
    X509.ecdsaPubKeyParsing (fun _ _ => true) X509.init
        (ASN1Node.mk [] [leafNode [], leafNode [0, 3, 7, 7]] []) Curve.P256
      = (X509.init, some ParseError.unexpectedPublicKeyEncoding) :=
  ecdsa_noncanonical_point_rejected (fun _ _ => true) X509.init
    (ASN1Node.mk [] [leafNode [], leafNode [0, 3, 7, 7]] [])
    (leafNode [0, 3, 7, 7]) Curve.P256 rfl (by decide)

/-- C6 (corrected): a nonzero leading unused-bits byte is always a hard
rejection and the key is never accepted, but the error identities differ by
algorithm: RSA key extraction fails with `InvalidBitStringEncoding`, while
EC key extraction checks the two-byte prefix at once and fails with
`UnexpectedPublicKeyEncoding`. -/
theorem bitstring_unused_bits_rejected :
    (∀ (d : List Nat → Option ASN1Node) (s : X509) (spki pk : ASN1Node)
        (b : Nat),
      spki.getChild 1 = some pk → pk.value.head? = some b → b ≠ 0 →
      X509.rsaPubKeyParsing d s spki
        = (s, some ParseError.invalidBitStringEncoding)) ∧
    (∀ (o : Curve → List Nat → Bool) (s : X509) (spki pk : ASN1Node)
        (c : Curve) (b : Nat),
      spki.getChild 1 = some pk → pk.value.head? = some b → b ≠ 0 →
      X509.ecdsaPubKeyParsing o s spki c
        = (s, some ParseError.unexpectedPublicKeyEncoding)) := by
  constructor
  · intro d s spki pk b h1 h2 h3
    simp [X509.rsaPubKeyParsing, h1, h2, h3]
  · intro o s spki pk c b h1 h2 h3
    have hp : pk.value.take 2 ≠ [0, 4] := by
      cases hv : pk.value with
      | nil => simp [hv] at h2
      | cons a t =>
        rw [hv] at h2
        have hab : a = b := by simpa using h2
        intro hcontra
        have h5 : a :: t.take 1 = [0, 4] := hcontra
        injection h5 with h5a h5b
        omega
    simp [X509.ecdsaPubKeyParsing, h1, hp]

/-- Witness for the amended C6 theorem: a nonzero unused-bits byte on an RSA
and on an EC subjectPublicKeyInfo, each rejected with its own error. -/
theorem bitstring_unused_bits_rejected_witness :
    X509.rsaPubKeyParsing (fun _ => none) X509.init
        (ASN1Node.mk [] [leafNode [], leafNode [1, 4, 5, 6]] [])
      = (X509.init, some ParseError.invalidBitStringEncoding) ∧
    X509.ecdsaPubKeyParsing (fun _ _ => true) X509.init ecBadSpki Curve.P256
      = (X509.init, some ParseError.unexpectedPublicKeyEncoding) :=
  ⟨bitstring_unused_bits_rejected.1 (fun _ => none) X509.init
      (ASN1Node.mk [] [leafNode [], leafNode [1, 4, 5, 6]] [])
      (leafNode [1, 4, 5, 6]) 1 rfl rfl (by decide),
   bitstring_unused_bits_rejected.2 (fun _ _ => true) X509.init ecBadSpki
      (leafNode [1, 4, 5, 6]) Curve.P256 1 rfl rfl (by decide)⟩

/-- C6 counterexample: on a complete ECDSA certificate whose BIT STRING value
has the nonzero leading unused-bits byte `1`, the parse fails with
`UnexpectedPublicKeyEncoding`, not with `InvalidBitStringEncoding` as the
claim states. -/
theorem bitstring_unused_bits_ec_error_counterexample :
    (X509.parseBinary (fun _ => some ecBadTree) (fun _ _ => true) X509.init
        [7]).2 = some ParseError.unexpectedPublicKeyEncoding ∧
    (X509.parseBinary (fun _ => some ecBadTree) (fun _ _ => true) X509.init
        [7]).2 ≠ some ParseError.invalidBitStringEncoding := by
  decide

/-- C3: for the RSA PKCS#1 OID, algorithm resolution proceeds to RSA key
extraction exactly when the AlgorithmIdentifier has two children whose second
decodes to the empty byte sequence; a missing or non-empty parameters field
is rejected with `InvalidAlgorithmParameters`. -/
theorem rsa_params_validation (d : List Nat → Option ASN1Node)
    (o : Curve → List Nat → Bool) (s : X509) (spki algId alg : ASN1Node)
    (h0 : spki.getChild 0 = some algId) (h1 : algId.getChild 0 = some alg)
    (h2 : alg.value = [42, 134, 72, 134, 247, 13, 1, 1, 1]) :
    (rsaParamsOk algId →
      X509.algResolution d o s spki
        = X509.rsaPubKeyParsing d { s with certAlg := some "rsa" } spki) ∧
    (¬ rsaParamsOk algId →
      X509.algResolution d o s spki
        = ({ s with certAlg := some "rsa" },
           some ParseError.invalidAlgorithmParameters)) := by
  constructor
  · rintro ⟨hlen, hparams⟩
    rcases hq : algId.getChild 1 with _ | q
    · rw [hq] at hparams
      simp at hparams
    · rw [hq] at hparams
      simp only [Option.map_some', Option.some.injEq] at hparams
      simp [X509.algResolution, h0, h1, h2, hlen, hq, hparams]
  · intro hno
    by_cases hlen : algId.getChildCount = 2
    · have hlt : 1 < algId.children.length := by
        unfold ASN1Node.getChildCount at hlen
        omega
      obtain ⟨q, hq⟩ : ∃ q, algId.getChild 1 = some q :=
        ⟨algId.children.get ⟨1, hlt⟩, List.get?_eq_get hlt⟩
      have hqv : q.value ≠ [] := by
        intro hv
        exact hno ⟨hlen, by simp [hq, hv]⟩
      simp [X509.algResolution, h0, h1, h2, hlen, hq, hqv]
    · simp [X509.algResolution, h0, h1, h2, hlen]

/-- Witness for C3 at a concrete well-formed RSA AlgorithmIdentifier. -/
theorem rsa_params_validation_witness :
    X509.algResolution rsaDec (fun _ _ => true) X509.init rsaSpki
      = X509.rsaPubKeyParsing rsaDec
          { X509.init with certAlg := some "rsa" } rsaSpki :=
  (rsa_params_validation rsaDec (fun _ _ => true) X509.init rsaSpki rsaAlgId
      (leafNode [42, 134, 72, 134, 247, 13, 1, 1, 1]) rfl rfl rfl).1
    (by exact ⟨rfl, rfl⟩)

/-- C5: algorithm resolution maps the rsaEncryption OID to `"rsa"`, the
RSASSA-PSS OID to `"rsa-pss"` (passing straight to RSA key extraction with
no look at the parameters, which therefore never cause a failure), the
ecPublicKey OID to `"ecdsa"`, and fails with `UnrecognizedAlgorithm` on any
other OID. -/
theorem algorithm_oid_resolution (d : List Nat → Option ASN1Node)
    (o : Curve → List Nat → Bool) (s : X509) (spki algId alg : ASN1Node)
    (h0 : spki.getChild 0 = some algId) (h1 : algId.getChild 0 = some alg) :
    (alg.value = [42, 134, 72, 134, 247, 13, 1, 1, 1] →
      (X509.algResolution d o s spki).1.certAlg = some "rsa") ∧
    (alg.value = [42, 134, 72, 134, 247, 13, 1, 1, 10] →
      X509.algResolution d o s spki
        = X509.rsaPubKeyParsing d { s with certAlg := some "rsa-pss" } spki) ∧
    (alg.value = [42, 134, 72, 206, 61, 2, 1] →
      (X509.algResolution d o s spki).1.certAlg = some "ecdsa") ∧
    (alg.value ≠ [42, 134, 72, 134, 247, 13, 1, 1, 1] →
     alg.value ≠ [42, 134, 72, 134, 247, 13, 1, 1, 10] →
     alg.value ≠ [42, 134, 72, 206, 61, 2, 1] →
      X509.algResolution d o s spki
        = (s, some ParseError.unrecognizedAlgorithm)) := by
  refine ⟨?_, ?_, ?_, ?_⟩
  · intro h2
    simp [X509.algResolution, h0, h1, h2]
    repeat' split
    all_goals simp [rsaPubKeyParsing_certAlg]
  · intro h2
    simp [X509.algResolution, h0, h1, h2]
  · intro h2
    simp [X509.algResolution, h0, h1, h2]
    repeat' split
    all_goals simp [ecdsaPubKeyParsing_certAlg]
  · intro hna hnb hnc
    simp [X509.algResolution, h0, h1, hna, hnb, hnc]

/-- Witness for C5 at a concrete RSA AlgorithmIdentifier. -/
theorem algorithm_oid_resolution_witness :
    (X509.algResolution rsaDec (fun _ _ => true) X509.init rsaSpki).1.certAlg
      = some "rsa" :=
  (algorithm_oid_resolution rsaDec (fun _ _ => true) X509.init rsaSpki rsaAlgId
      (leafNode [42, 134, 72, 134, 247, 13, 1, 1, 1]) rfl rfl).1 rfl

/-- C4: with the ECDSA algorithm OID and a two-child AlgorithmIdentifier,
the curve OID is resolved through the fixed three-entry table — the resulting
key, when parsing succeeds, is always on the curve the OID names — and any
other curve OID fails with `UnknownCurve`. -/
theorem ecdsa_curve_resolution (d : List Nat → Option ASN1Node)
    (o : Curve → List Nat → Bool) (s : X509) (spki algId alg curveId : ASN1Node)
    (h0 : spki.getChild 0 = some algId) (h1 : algId.getChild 0 = some alg)
    (h2 : alg.value = [42, 134, 72, 206, 61, 2, 1])
    (h3 : algId.getChildCount = 2) (h4 : algId.getChild 1 = some curveId) :
    (∀ c : Curve, curveFromOID curveId.value = some c →
      X509.algResolution d o s spki
          = X509.ecdsaPubKeyParsing o { s with certAlg := some "ecdsa" } spki c ∧
      (∀ t : X509, X509.algResolution d o s spki = (t, none) →
        ∃ pt, t.publicKey = some (PublicKey.ec c pt))) ∧
    (curveFromOID curveId.value = none →
      X509.algResolution d o s spki
          = ({ s with certAlg := some "ecdsa" },
             some ParseError.unknownCurve)) := by
  constructor
  · intro c hc
    by_cases k1 : curveId.value = [42, 134, 72, 206, 61, 3, 1, 7]
    · simp [curveFromOID, k1] at hc
      have heq : X509.algResolution d o s spki
          = X509.ecdsaPubKeyParsing o { s with certAlg := some "ecdsa" }
              spki Curve.P256 := by
        simp [X509.algResolution, h0, h1, h2, h3, h4, k1]
      subst hc
      refine ⟨heq, fun t ht => ?_⟩
      rw [heq] at ht
      exact ecdsa_curve_of_success o _ spki _ t ht
    · by_cases k2 : curveId.value = [43, 129, 4, 0, 34]
      · simp [curveFromOID, k1, k2] at hc
        have heq : X509.algResolution d o s spki
            = X509.ecdsaPubKeyParsing o { s with certAlg := some "ecdsa" }
                spki Curve.P384 := by
          simp [X509.algResolution, h0, h1, h2, h3, h4, k1, k2]
        subst hc
        refine ⟨heq, fun t ht => ?_⟩
        rw [heq] at ht
        exact ecdsa_curve_of_success o _ spki _ t ht
      · by_cases k3 : curveId.value = [43, 129, 4, 0, 35]
        · simp [curveFromOID, k1, k2, k3] at hc
          have heq : X509.algResolution d o s spki
              = X509.ecdsaPubKeyParsing o { s with certAlg := some "ecdsa" }
                  spki Curve.P521 := by
            simp [X509.algResolution, h0, h1, h2, h3, h4, k1, k2, k3]
          subst hc
          refine ⟨heq, fun t ht => ?_⟩
          rw [heq] at ht
          exact ecdsa_curve_of_success o _ spki _ t ht
        · rw [curveFromOID, if_neg k1, if_neg k2, if_neg k3] at hc
          exact Option.noConfusion hc
  · intro hnone
    by_cases k1 : curveId.value = [42, 134, 72, 206, 61, 3, 1, 7]
    · simp [curveFromOID, k1] at hnone
    · by_cases k2 : curveId.value = [43, 129, 4, 0, 34]
      · simp [curveFromOID, k1, k2] at hnone
      · by_cases k3 : curveId.value = [43, 129, 4, 0, 35]
        · simp [curveFromOID, k1, k2, k3] at hnone
        · simp [X509.algResolution, h0, h1, h2, h3, h4, k1, k2, k3]

/-- Witness for C4 at a concrete P-256 ECDSA AlgorithmIdentifier. -/
theorem ecdsa_curve_resolution_witness :
    X509.algResolution (fun _ => none) (fun _ _ => true) X509.init ecBadSpki
      = X509.ecdsaPubKeyParsing (fun _ _ => true)
          { X509.init with certAlg := some "ecdsa" } ecBadSpki Curve.P256 :=
  ((ecdsa_curve_resolution (fun _ => none) (fun _ _ => true) X509.init
      ecBadSpki ecAlgId (leafNode [42, 134, 72, 206, 61, 2, 1])
      (leafNode [42, 134, 72, 206, 61, 3, 1, 7]) rfl rfl rfl rfl rfl).1
    Curve.P256 (by decide)).1

/-- C2: when the decoded tbsCertificate's first value byte is `0xA0`, the
parse takes the subject from child index 5 and the subjectPublicKeyInfo
from child index 6; with any other first value byte it uses indices 4
and 5. -/
theorem parseBinary_version_offset (d : List Nat → Option ASN1Node)
    (o : Curve → List Nat → Bool) (s : X509) (bs : List Nat)
    (p tbs : ASN1Node) (b0 : Nat)
    (h1 : d bs = some p) (h2 : p.getChild 0 = some tbs)
    (h3 : tbs.value.head? = some b0) :
    X509.parseBinary d o s bs
      = if b0 = 0xA0 then
          parseSubjectOnward d o { s with bytes := bs } tbs 5 6
        else
          parseSubjectOnward d o { s with bytes := bs } tbs 4 5 := by
  by_cases hb : b0 = 0xA0 <;>
    simp [X509.parseBinary, parseSubjectOnward, h1, h2, h3, hb]

/-- Witness for C2 at a concrete certificate tree with the version field
present. -/
theorem parseBinary_version_offset_witness :
    X509.parseBinary rsaDec (fun _ _ => true) X509.init [1]
      = if (160 : Nat) = 0xA0 then
          parseSubjectOnward rsaDec (fun _ _ => true)
            { X509.init with bytes := [1] } rsaTbs 5 6
        else
          parseSubjectOnward rsaDec (fun _ _ => true)
            { X509.init with bytes := [1] } rsaTbs 4 5 :=
  parseBinary_version_offset rsaDec (fun _ _ => true) X509.init [1]
    (ASN1Node.mk [] [rsaTbs] []) rsaTbs 160 rfl rfl rfl
